import Mathlib

/-!
Shallow embedding of the ipmi-power-http gateway (src/src/main.rs) together
with proofs about its authorization resolution, command construction, output
classification and HTTP response mapping.

Modelling conventions:
* Strings from the process boundary (stdout, stderr after lossy UTF-8
  conversion) are plain Lean strings.
* Process execution is abstracted as a function from the composed command
  line to an optional raw result; the value none models the case where
  std process Command output() returns Err (the external process could not
  be launched at all), some r models a launched process with captured
  exit-status flag, stdout and stderr.
* The Rust expect call on a launch failure (main.rs line 114) panics the
  handler task; this is modelled by the panicked constructor of
  RequestOutcome, which carries the panic message and produces no HTTP
  response.
* Each handler also returns the list of command lines it actually handed to
  the process runner, so that non-invocation is a provable statement.
* The single-quote character (ASCII 39) is written sq below.
-/

namespace IpmiPower

/-- The single-quote character, ASCII 39. -/
def sq : String := String.mk [Char.ofNat 39]

/-- One IPMI endpoint from the configuration (struct IpmiEndpoint, main.rs 36-42). -/
structure IpmiEndpoint where
  name : String
  ipmi_address : String
  username : String
  password : String
deriving DecidableEq, Repr

/-- One tenant group: a bearer token and the endpoints it may control
(struct Group, main.rs 29-34). -/
structure Group where
  name : String
  token : String
  endpoints : List IpmiEndpoint
deriving DecidableEq, Repr

/-- The service configuration (struct Config, main.rs 23-27). -/
structure Config where
  listen_port : Nat
  groups : List Group
deriving DecidableEq, Repr

/-- Requested power action (enum PowerAction, main.rs 63-70). -/
inductive PowerAction where
  | On
  | Off
  | Reset
  | Cycle
  | Status
deriving DecidableEq, Repr

/-- Classified power status (enum PowerStatus, main.rs 72-78). -/
inductive PowerStatus where
  | On
  | Off
  | Reset
  | Cycle
deriving DecidableEq, Repr

/-- Classified power error (enum PowerError, main.rs 80-88). -/
inductive PowerError where
  | CommandNotSupported
  | InvalidState
  | AuthenticationFailed
  | ConnectionFailed
  | UnexpectedOutput
  | UnknownError
deriving DecidableEq, Repr

/-- Whether a request is a status query or a control action
(enum ActionContext, main.rs 90-93). -/
inductive ActionContext where
  | Status
  | Control
deriving DecidableEq, Repr

/-- Raw result of one launched external command: exit-status success flag
plus captured stdout and stderr (main.rs 108-117). -/
structure CommandResult where
  exitSucceeded : Bool
  stdout : String
  stderr : String
deriving DecidableEq, Repr

/-- Substring containment, modelling the Rust str contains method. -/
def strContains (s pat : String) : Bool :=
  decide (pat.data <:+: s.data)

/-- Whitespace trimming at both ends of a string, modelling the Rust str
trim method. Whitespace is modelled as the ASCII whitespace characters
(space, tab, line feed, carriage return), which covers everything the
external tool emits around its output lines. -/
def strTrim (s : String) : String :=
  String.mk (((s.data.dropWhile Char.isWhitespace).reverse.dropWhile Char.isWhitespace).reverse)

/-- Body of an HTTP response: plain text, or a JSON object with a single
string field (the source only ever emits one-field objects). -/
inductive RespBody where
  | text : String → RespBody
  | jsonObj : String → String → RespBody
deriving DecidableEq, Repr

/-- An HTTP response: status code and body. -/
structure Response where
  status : Nat
  body : RespBody
deriving DecidableEq, Repr

/-- Outcome of one handler invocation: an HTTP response, or a panic of the
handler task (from a Rust expect), which produces no HTTP response. -/
inductive RequestOutcome where
  | response : Response → RequestOutcome
  | panicked : String → RequestOutcome
deriving DecidableEq, Repr

/-- Find the group whose token field equals the given token
(Config::get_group_by_token, main.rs 53-55). -/
def Config.get_group_by_token (config : Config) (token : String) : Option Group :=
  config.groups.find? (fun g => g.token == token)

/-- Resolve a bearer token and endpoint name to an endpoint, or an error
response: 401 when no group carries the token, 404 when the named endpoint
is not in the resolved group (get_endpoint_from_token, main.rs 278-308). -/
def get_endpoint_from_token (config : Config) (token : String) (endpoint_id : String) :
    Except Response IpmiEndpoint :=
  match config.get_group_by_token token with
  | none => .error ⟨401, .text "Invalid token"⟩
  | some group =>
    match group.endpoints.find? (fun e => e.name == endpoint_id) with
    | none => .error ⟨404, .text ("Endpoint " ++ sq ++ endpoint_id ++ sq ++ " not found")⟩
    | some e => .ok e

/-- The action keyword handed to ipmitool (main.rs 96-102). -/
def actionStr : PowerAction → String
  | .On => "on"
  | .Off => "off"
  | .Reset => "reset"
  | .Cycle => "cycle"
  | .Status => "status"

/-- The shell command line composed by power_action (main.rs 103-106):
direct string interpolation of address, username, the password between two
single-quote characters, and the action keyword; the result is then run
through sh -c (main.rs 108-110). -/
def buildCommand (endpoint : IpmiEndpoint) (action_str : String) : String :=
  "ipmitool -I lanplus -H " ++ endpoint.ipmi_address ++ " -U " ++ endpoint.username ++
    " -P " ++ sq ++ endpoint.password ++ sq ++ " power " ++ action_str

/-- Classification of one raw command result (main.rs 116-157): on a failed
exit status, inspect stderr for known substrings in precedence order; on a
successful exit status, trim stdout and match it exactly against the closed
set of known phrases. -/
def classify (output : CommandResult) : Except PowerError PowerStatus :=
  if !output.exitSucceeded then
    let stderr := output.stderr
    if strContains stderr "Command not supported in present state" then
      .error .CommandNotSupported
    else if strContains stderr "Invalid user name" || strContains stderr "authentication failure" then
      .error .AuthenticationFailed
    else if strContains stderr "Unable to establish IPMI v2 / RMCP+ session" then
      .error .ConnectionFailed
    else if strContains stderr "Invalid command" then
      .error .InvalidState
    else
      .error .UnknownError
  else
    let out := strTrim output.stdout
    if out = "Chassis Power is on" then .ok .On
    else if out = "Chassis Power is off" then .ok .Off
    else if out = "Chassis Power Control: Up/On" then .ok .On
    else if out = "Chassis Power Control: Down/Off" then .ok .Off
    else if out = "Chassis Power Control: Reset" then .ok .Reset
    else if out = "Chassis Power Control: Cycle" then .ok .Cycle
    else if out = "Chassis Power Control: Soft" then .ok .Off
    else if out = "Chassis Power Control: On" then .ok .On
    else if out = "Chassis Power Control: Off" then .ok .Off
    else .error .UnexpectedOutput

/-- Unfolding lemma for classify on a failed exit status. -/
theorem classify_failed (so se : String) :
    classify ⟨false, so, se⟩ =
      (if strContains se "Command not supported in present state" then
        .error .CommandNotSupported
      else if strContains se "Invalid user name" || strContains se "authentication failure" then
        .error .AuthenticationFailed
      else if strContains se "Unable to establish IPMI v2 / RMCP+ session" then
        .error .ConnectionFailed
      else if strContains se "Invalid command" then
        .error .InvalidState
      else
        .error .UnknownError) := rfl

/-- Unfolding lemma for classify on a successful exit status. -/
theorem classify_succeeded (so se : String) :
    classify ⟨true, so, se⟩ =
      (if strTrim so = "Chassis Power is on" then .ok .On
      else if strTrim so = "Chassis Power is off" then .ok .Off
      else if strTrim so = "Chassis Power Control: Up/On" then .ok .On
      else if strTrim so = "Chassis Power Control: Down/Off" then .ok .Off
      else if strTrim so = "Chassis Power Control: Reset" then .ok .Reset
      else if strTrim so = "Chassis Power Control: Cycle" then .ok .Cycle
      else if strTrim so = "Chassis Power Control: Soft" then .ok .Off
      else if strTrim so = "Chassis Power Control: On" then .ok .On
      else if strTrim so = "Chassis Power Control: Off" then .ok .Off
      else .error .UnexpectedOutput) := rfl

/-- The power_action function (main.rs 95-158) with process execution
abstracted as run. It composes the command line, attempts to execute it, and
classifies the captured output. A launch failure (run gives none) hits the
Rust expect call at main.rs 114 and is modelled as a left error carrying the
panic message. The second component lists the command lines handed to run. -/
def power_action (run : String → Option CommandResult) (action : PowerAction)
    (endpoint : IpmiEndpoint) :
    Except String (Except PowerError PowerStatus) × List String :=
  let command := buildCommand endpoint (actionStr action)
  match run command with
  | none => (.error "Failed to run command", [command])
  | some output => (.ok (classify output), [command])

/-- Map a PowerError onto HTTP 500 with a fixed one-line JSON error message
(map_power_error_to_response, main.rs 191-206). -/
def map_power_error_to_response (err : PowerError) : Response :=
  let error_message :=
    match err with
    | .CommandNotSupported => "Command not supported in present state"
    | .InvalidState => "Invalid system state for this command"
    | .AuthenticationFailed => "Authentication failed"
    | .ConnectionFailed => "Unable to connect to IPMI endpoint"
    | .UnexpectedOutput => "Unexpected response from IPMI endpoint"
    | .UnknownError => "An unknown error occurred"
  ⟨500, .jsonObj "error" error_message⟩

/-- Map a classification result onto an HTTP response
(handle_power_action_result, main.rs 160-189). -/
def handle_power_action_result (result : Except PowerError PowerStatus)
    (endpoint_id : String) (context : ActionContext) : Response :=
  match result with
  | .ok status =>
    match context with
    | .Status =>
      let status_str :=
        match status with
        | .On => "on"
        | .Off => "off"
        | .Reset => "reset"
        | .Cycle => "cycle"
      ⟨200, .jsonObj "status" status_str⟩
    | .Control => ⟨200, .text "ok"⟩
  | .error err => map_power_error_to_response err

/-- The GET power status handler (get_power_status, main.rs 230-246), with
process execution abstracted as run. The second component lists the command
lines handed to run during the request. -/
def get_power_status (config : Config) (token : String) (endpoint_id : String)
    (run : String → Option CommandResult) : RequestOutcome × List String :=
  match get_endpoint_from_token config token endpoint_id with
  | .error response => (.response response, [])
  | .ok endpoint =>
    let res := power_action run .Status endpoint
    match res.1 with
    | .error msg => (.panicked msg, res.2)
    | .ok r => (.response (handle_power_action_result r endpoint_id .Status), res.2)

/-- The POST power control handler (power_control, main.rs 248-276): the
body action arrives as free text and is matched case-sensitively against the
closed set of action keywords before any invocation; an unrecognized action
yields 400. The second component lists the command lines handed to run. -/
def power_control (config : Config) (token : String) (endpoint_id : String)
    (action_text : String) (run : String → Option CommandResult) :
    RequestOutcome × List String :=
  match get_endpoint_from_token config token endpoint_id with
  | .error response => (.response response, [])
  | .ok endpoint =>
    let parsed : Option PowerAction :=
      if action_text = "on" then some .On
      else if action_text = "off" then some .Off
      else if action_text = "reset" then some .Reset
      else if action_text = "cycle" then some .Cycle
      else none
    match parsed with
    | none => (.response ⟨400, .text "Invalid action"⟩, [])
    | some action =>
      let res := power_action run action endpoint
      match res.1 with
      | .error msg => (.panicked msg, res.2)
      | .ok r => (.response (handle_power_action_result r endpoint_id .Control), res.2)

/-- Word splitting of a command string by a POSIX shell, restricted to the
syntax buildCommand can emit: ordinary characters, the space separator
(ASCII 32) and single-quoted spans (ASCII 39). The arguments are the
remaining input, the quoting state, the current word (reversed) and whether
a current word has been started. -/
def shWords (cs : List Char) (inQuote : Bool) (cur : List Char) (started : Bool) :
    List (List Char) :=
  match cs with
  | [] => if started then [cur.reverse] else []
  | c :: rest =>
    if inQuote then
      if c = Char.ofNat 39 then shWords rest false cur true
      else shWords rest true (c :: cur) true
    else if c = Char.ofNat 39 then shWords rest true cur true
    else if c = Char.ofNat 32 then
      if started then cur.reverse :: shWords rest false [] false
      else shWords rest false [] false
    else shWords rest false (c :: cur) true

/-- The argument vector a POSIX shell would derive from a command string,
per the restricted model above. -/
def shellWords (s : String) : List String :=
  (shWords s.data false [] false).map String.mk

/-- A sample endpoint used to instantiate the theorems below. -/
def epWeb1 : IpmiEndpoint := ⟨"web1", "10.0.0.5", "admin", "hunter2"⟩

/-- A second sample endpoint, living in a different group. -/
def epWeb2 : IpmiEndpoint := ⟨"web2", "10.0.0.6", "admin", "hunter3"⟩

/-- A sample configuration with two groups holding distinct tokens. -/
def cfgTwo : Config := ⟨8080, [⟨"g1", "t1", [epWeb1]⟩, ⟨"g2", "t2", [epWeb2]⟩]⟩

/-- A sample configuration where two groups carry the same token. -/
def cfgDup : Config := ⟨8080, [⟨"g1", "tok", [epWeb1]⟩, ⟨"g2", "tok", [epWeb2]⟩]⟩

/-- C1: when the exit status indicates success, classification trims stdout
and matches it exactly against the closed set of nine phrases, mapping the
three On phrases to On, the four Off phrases to Off, the Reset phrase to
Reset, the Cycle phrase to Cycle, and failing with UnexpectedOutput on every
other trimmed text. -/
theorem success_output_classification (stdout stderr : String) :
    ((strTrim stdout = "Chassis Power is on" ∨ strTrim stdout = "Chassis Power Control: Up/On" ∨
        strTrim stdout = "Chassis Power Control: On") →
      classify ⟨true, stdout, stderr⟩ = .ok .On)
  ∧ ((strTrim stdout = "Chassis Power is off" ∨ strTrim stdout = "Chassis Power Control: Down/Off" ∨
        strTrim stdout = "Chassis Power Control: Off" ∨ strTrim stdout = "Chassis Power Control: Soft") →
      classify ⟨true, stdout, stderr⟩ = .ok .Off)
  ∧ (strTrim stdout = "Chassis Power Control: Reset" → classify ⟨true, stdout, stderr⟩ = .ok .Reset)
  ∧ (strTrim stdout = "Chassis Power Control: Cycle" → classify ⟨true, stdout, stderr⟩ = .ok .Cycle)
  ∧ (strTrim stdout ∉ (["Chassis Power is on", "Chassis Power is off",
        "Chassis Power Control: Up/On", "Chassis Power Control: Down/Off",
        "Chassis Power Control: Reset", "Chassis Power Control: Cycle",
        "Chassis Power Control: Soft", "Chassis Power Control: On",
        "Chassis Power Control: Off"] : List String) →
      classify ⟨true, stdout, stderr⟩ = .error .UnexpectedOutput) := by
  refine ⟨?_, ?_, ?_, ?_, ?_⟩
  · rintro (h | h | h) <;> simp [classify, h]
  · rintro (h | h | h | h) <;> simp [classify, h]
  · intro h; simp [classify, h]
  · intro h; simp [classify, h]
  · intro h
    simp only [List.mem_cons, List.not_mem_nil, or_false, not_or] at h
    obtain ⟨h1, h2, h3, h4, h5, h6, h7, h8, h9⟩ := h
    simp [classify, h1, h2, h3, h4, h5, h6, h7, h8, h9]

/-- Witness for C1 at concrete inputs: padded status output classifies as
On, and an unknown phrase classifies as UnexpectedOutput. -/
theorem success_output_classification_witness :
    classify ⟨true, "  Chassis Power is on  ", ""⟩ = .ok .On
  ∧ classify ⟨true, "Some Weird Output", ""⟩ = .error .UnexpectedOutput :=
  ⟨(success_output_classification "  Chassis Power is on  " "").1 (Or.inl (by decide)),
   (success_output_classification "Some Weird Output" "").2.2.2.2 (by decide)⟩

/-- C2: when the exit status indicates failure, stderr is inspected for the
known substrings with first-match-wins precedence: the present-state phrase
wins over all, then the two authentication phrases, then the session phrase,
then the invalid-command phrase, and any other stderr yields UnknownError. -/
theorem failure_stderr_classification (stdout stderr : String) :
    (strContains stderr "Command not supported in present state" = true →
      classify ⟨false, stdout, stderr⟩ = .error .CommandNotSupported)
  ∧ (strContains stderr "Command not supported in present state" = false →
      (strContains stderr "Invalid user name" = true ∨
        strContains stderr "authentication failure" = true) →
      classify ⟨false, stdout, stderr⟩ = .error .AuthenticationFailed)
  ∧ (strContains stderr "Command not supported in present state" = false →
      strContains stderr "Invalid user name" = false →
      strContains stderr "authentication failure" = false →
      strContains stderr "Unable to establish IPMI v2 / RMCP+ session" = true →
      classify ⟨false, stdout, stderr⟩ = .error .ConnectionFailed)
  ∧ (strContains stderr "Command not supported in present state" = false →
      strContains stderr "Invalid user name" = false →
      strContains stderr "authentication failure" = false →
      strContains stderr "Unable to establish IPMI v2 / RMCP+ session" = false →
      strContains stderr "Invalid command" = true →
      classify ⟨false, stdout, stderr⟩ = .error .InvalidState)
  ∧ (strContains stderr "Command not supported in present state" = false →
      strContains stderr "Invalid user name" = false →
      strContains stderr "authentication failure" = false →
      strContains stderr "Unable to establish IPMI v2 / RMCP+ session" = false →
      strContains stderr "Invalid command" = false →
      classify ⟨false, stdout, stderr⟩ = .error .UnknownError) := by
  refine ⟨?_, ?_, ?_, ?_, ?_⟩
  · intro h; simp [classify, h]
  · rintro h1 (h | h) <;> simp [classify, h1, h]
  · intro h1 h2 h3 h4; simp [classify, h1, h2, h3, h4]
  · intro h1 h2 h3 h4 h5; simp [classify, h1, h2, h3, h4, h5]
  · intro h1 h2 h3 h4 h5; simp [classify, h1, h2, h3, h4, h5]

/-- Witness for C2 at concrete inputs: an authentication-failure stderr
classifies as AuthenticationFailed, and an unrecognized stderr as
UnknownError. -/
theorem failure_stderr_classification_witness :
    classify ⟨false, "", "blah authentication failure blah"⟩ = .error .AuthenticationFailed
  ∧ classify ⟨false, "", "something else entirely"⟩ = .error .UnknownError :=
  ⟨(failure_stderr_classification "" "blah authentication failure blah").2.1
      (by decide) (Or.inr (by decide)),
   (failure_stderr_classification "" "something else entirely").2.2.2.2
      (by decide) (by decide) (by decide) (by decide) (by decide)⟩

/-- C9: classification is a pure, deterministic function of the raw command
result alone: power_action classifies through classify, whose value depends
only on the exitSucceeded, stdout and stderr fields, so two invocations
whose command results are identical classify identically even when the
requested actions and endpoints differ. -/
theorem classification_pure (a₁ a₂ : PowerAction) (e₁ e₂ : IpmiEndpoint)
    (run₁ run₂ : String → Option CommandResult) (r₁ r₂ : CommandResult) :
    (run₁ (buildCommand e₁ (actionStr a₁)) = run₂ (buildCommand e₂ (actionStr a₂)) →
      (power_action run₁ a₁ e₁).1 = (power_action run₂ a₂ e₂).1)
  ∧ (r₁.exitSucceeded = r₂.exitSucceeded → r₁.stdout = r₂.stdout → r₁.stderr = r₂.stderr →
      classify r₁ = classify r₂) := by
  constructor
  · intro h
    simp only [power_action]
    rw [h]
    cases run₂ (buildCommand e₂ (actionStr a₂)) <;> rfl
  · intro h1 h2 h3
    obtain ⟨b1, so1, se1⟩ := r₁
    obtain ⟨b2, so2, se2⟩ := r₂
    simp only at h1 h2 h3
    subst h1; subst h2; subst h3
    rfl

/-- Witness for C9: an on command and a status query against different
endpoints, with the same captured output, classify identically. -/
theorem classification_pure_witness :
    (power_action (fun _ => some ⟨true, "Chassis Power is on", ""⟩) .On epWeb1).1
      = (power_action (fun _ => some ⟨true, "Chassis Power is on", ""⟩) .Status epWeb2).1 :=
  (classification_pure .On .Status epWeb1 epWeb2
    (fun _ => some ⟨true, "Chassis Power is on", ""⟩)
    (fun _ => some ⟨true, "Chassis Power is on", ""⟩)
    ⟨true, "", ""⟩ ⟨true, "", ""⟩).1 rfl

/-- C10: the two classification phases are disjoint: a successful exit never
yields a stderr-derived error whatever stderr contains, and a failed exit
always yields one of the five stderr-derived errors, never UnexpectedOutput
whatever stdout contains. -/
theorem classification_phase_disjoint (r : CommandResult) :
    (r.exitSucceeded = true →
      classify r ≠ .error .CommandNotSupported ∧ classify r ≠ .error .AuthenticationFailed ∧
      classify r ≠ .error .ConnectionFailed ∧ classify r ≠ .error .InvalidState ∧
      classify r ≠ .error .UnknownError)
  ∧ (r.exitSucceeded = false →
      classify r ≠ .error .UnexpectedOutput ∧
      (classify r = .error .CommandNotSupported ∨ classify r = .error .AuthenticationFailed ∨
        classify r = .error .ConnectionFailed ∨ classify r = .error .InvalidState ∨
        classify r = .error .UnknownError)) := by
  obtain ⟨b, so, se⟩ := r
  cases b
  · refine ⟨fun h => Bool.noConfusion h, fun _ => ?_⟩
    rw [classify_failed]
    split_ifs <;> simp
  · refine ⟨fun _ => ?_, fun h => Bool.noConfusion h⟩
    rw [classify_succeeded]
    split_ifs <;> simp

/-- Witness for C10 at a concrete failed invocation with empty stderr. -/
theorem classification_phase_disjoint_witness :
    classify ⟨false, "", ""⟩ ≠ .error .UnexpectedOutput
  ∧ (classify ⟨false, "", ""⟩ = .error .CommandNotSupported ∨
      classify ⟨false, "", ""⟩ = .error .AuthenticationFailed ∨
      classify ⟨false, "", ""⟩ = .error .ConnectionFailed ∨
      classify ⟨false, "", ""⟩ = .error .InvalidState ∨
      classify ⟨false, "", ""⟩ = .error .UnknownError) :=
  (classification_phase_disjoint ⟨false, "", ""⟩).2 rfl

/-- C7: every PowerError maps to HTTP 500 whose body is a one-field JSON
error object, with a fixed one-line message determined solely by the error
kind and drawn from a six-entry table containing no command output;
AuthenticationFailed maps to the message Authentication failed. -/
theorem error_response_fixed (err : PowerError) (endpoint_id : String) (context : ActionContext) :
    handle_power_action_result (.error err) endpoint_id context = map_power_error_to_response err
  ∧ (map_power_error_to_response err).status = 500
  ∧ (map_power_error_to_response err).body ∈ ([
      .jsonObj "error" "Command not supported in present state",
      .jsonObj "error" "Invalid system state for this command",
      .jsonObj "error" "Authentication failed",
      .jsonObj "error" "Unable to connect to IPMI endpoint",
      .jsonObj "error" "Unexpected response from IPMI endpoint",
      .jsonObj "error" "An unknown error occurred"] : List RespBody)
  ∧ map_power_error_to_response .AuthenticationFailed
      = ⟨500, .jsonObj "error" "Authentication failed"⟩ := by
  refine ⟨rfl, ?_, ?_, rfl⟩ <;> cases err <;> simp [map_power_error_to_response]

/-- Helper: find? applied to a list whose first satisfying element is a
returns a. -/
theorem find_append_first {α : Type} (p : α → Bool) (pre post : List α) (a : α)
    (hpa : p a = true) (hpre : ∀ x ∈ pre, p x = false) :
    (pre ++ a :: post).find? p = some a := by
  induction pre with
  | nil => simp [List.find?_cons_of_pos, hpa]
  | cons hd tl ih =>
    have hhd : p hd = false := hpre hd (List.mem_cons_self hd tl)
    rw [List.cons_append, List.find?_cons_of_neg _ (by simp [hhd])]
    exact ih (fun x hx => hpre x (List.mem_cons_of_mem hd hx))

/-- C4: a bearer token equal to no token in the configuration yields the 401
Invalid token response from both handlers, for every endpoint name and every
request body action text; and when several groups carry the same token,
resolution selects the first matching group in configuration order. -/
theorem token_resolution (config : Config) (token endpoint_id action_text : String)
    (run : String → Option CommandResult) :
    ((∀ g ∈ config.groups, g.token ≠ token) →
      power_control config token endpoint_id action_text run
          = (.response ⟨401, .text "Invalid token"⟩, [])
        ∧ get_power_status config token endpoint_id run
          = (.response ⟨401, .text "Invalid token"⟩, []))
  ∧ (∀ pre g post, config.groups = pre ++ g :: post → g.token = token →
      (∀ g₂ ∈ pre, g₂.token ≠ token) → config.get_group_by_token token = some g) := by
  constructor
  · intro h
    have hnone : config.get_group_by_token token = none := by
      unfold Config.get_group_by_token
      rw [List.find?_eq_none]
      intro g hg
      simp [h g hg]
    constructor
    · unfold power_control get_endpoint_from_token
      rw [hnone]
    · unfold get_power_status get_endpoint_from_token
      rw [hnone]
  · intro pre g post hsplit hg hpre
    unfold Config.get_group_by_token
    rw [hsplit]
    exact find_append_first _ pre post g (by simp [hg]) (fun x hx => by simp [hpre x hx])

/-- Witness for C4: an unknown token is rejected with 401 whatever the
endpoint name and action text, and in a configuration where two groups carry
the token tok, resolution returns the first group. -/
theorem token_resolution_witness :
    power_control cfgDup "bad" "web1" "weird" (fun _ => none)
        = (.response ⟨401, .text "Invalid token"⟩, [])
  ∧ cfgDup.get_group_by_token "tok" = some ⟨"g1", "tok", [epWeb1]⟩ :=
  ⟨((token_resolution cfgDup "bad" "web1" "weird" (fun _ => none)).1 (by decide)).1,
   (token_resolution cfgDup "tok" "x" "y" (fun _ => none)).2 [] ⟨"g1", "tok", [epWeb1]⟩
      [⟨"g2", "tok", [epWeb2]⟩] rfl rfl (by simp)⟩

/-- C5: for a token resolving to a group, an endpoint name absent from that
group yields the 404 response carrying the requested name, from the resolver
and from both handlers, whatever endpoints other groups contain. -/
theorem endpoint_scoping (config : Config) (token endpoint_id action_text : String)
    (g : Group) (run : String → Option CommandResult)
    (hg : config.get_group_by_token token = some g)
    (habs : ∀ e ∈ g.endpoints, e.name ≠ endpoint_id) :
    get_endpoint_from_token config token endpoint_id
        = .error ⟨404, .text ("Endpoint " ++ sq ++ endpoint_id ++ sq ++ " not found")⟩
    ∧ get_power_status config token endpoint_id run
        = (.response ⟨404, .text ("Endpoint " ++ sq ++ endpoint_id ++ sq ++ " not found")⟩, [])
    ∧ power_control config token endpoint_id action_text run
        = (.response ⟨404, .text ("Endpoint " ++ sq ++ endpoint_id ++ sq ++ " not found")⟩, []) := by
  have hfind : g.endpoints.find? (fun e => e.name == endpoint_id) = none := by
    rw [List.find?_eq_none]
    intro e he
    simp [habs e he]
  have hep : get_endpoint_from_token config token endpoint_id
      = .error ⟨404, .text ("Endpoint " ++ sq ++ endpoint_id ++ sq ++ " not found")⟩ := by
    unfold get_endpoint_from_token
    simp only [hg, hfind]
  refine ⟨hep, ?_, ?_⟩
  · unfold get_power_status
    rw [hep]
  · unfold power_control
    rw [hep]

/-- Witness for C5: with the token of group g1, requesting endpoint web2,
which exists only in group g2, yields 404 carrying the name web2. -/
theorem endpoint_scoping_witness :
    get_power_status cfgTwo "t1" "web2" (fun _ => none)
        = (.response ⟨404, .text ("Endpoint " ++ sq ++ "web2" ++ sq ++ " not found")⟩, []) :=
  (endpoint_scoping cfgTwo "t1" "web2" "on" ⟨"g1", "t1", [epWeb1]⟩ (fun _ => none)
    rfl (by decide)).2.1

/-- C6: for an authorized control request, an action text outside the closed
case-sensitive set of the four keywords yields the 400 Invalid action
response and no command line is ever handed to the process runner. -/
theorem invalid_action_not_invoked (config : Config) (token endpoint_id action_text : String)
    (ep : IpmiEndpoint) (run : String → Option CommandResult)
    (hep : get_endpoint_from_token config token endpoint_id = .ok ep)
    (ha : action_text ≠ "on" ∧ action_text ≠ "off" ∧
      action_text ≠ "reset" ∧ action_text ≠ "cycle") :
    power_control config token endpoint_id action_text run
      = (.response ⟨400, .text "Invalid action"⟩, []) := by
  obtain ⟨h1, h2, h3, h4⟩ := ha
  unfold power_control
  rw [hep]
  simp [h1, h2, h3, h4]

/-- Witness for C6: the capitalized action text On is rejected with 400 and
the runner is never consulted, although the request is fully authorized. -/
theorem invalid_action_not_invoked_witness :
    power_control cfgTwo "t1" "web1" "On" (fun _ => some ⟨true, "Chassis Power is on", ""⟩)
      = (.response ⟨400, .text "Invalid action"⟩, []) :=
  invalid_action_not_invoked cfgTwo "t1" "web1" "On" epWeb1
    (fun _ => some ⟨true, "Chassis Power is on", ""⟩) rfl (by decide)

/-- C3 names a behavior the source does not implement: on a process-launch
failure the expect call at main.rs 114 panics the handler task, so the
request produces no HTTP response at all, instead of the UnknownError
mapped to HTTP 500 that the claim requires. This theorem evaluates both
handlers of the embedding at the failing input. -/
theorem launch_failure_panics :
    get_power_status cfgTwo "t1" "web1" (fun _ => none)
        = (.panicked "Failed to run command", [buildCommand epWeb1 "status"])
  ∧ power_control cfgTwo "t1" "web1" "on" (fun _ => none)
        = (.panicked "Failed to run command", [buildCommand epWeb1 "on"])
  ∧ (get_power_status cfgTwo "t1" "web1" (fun _ => none)).1
        ≠ .response (map_power_error_to_response .UnknownError) := by
  refine ⟨rfl, rfl, ?_⟩
  decide

/-- A password holding single-quote characters, as a misconfigured secret. -/
def malPassword : String := "x" ++ sq ++ " y " ++ sq ++ "z"

/-- C8 names a hardening property the source does not implement: the
password is interpolated between bare single quotes into a string run
through sh -c, so a secret containing single-quote characters changes the
argument vector of the executed command. With the benign secret the tool
receives the secret verbatim as one argument after -P, but with malPassword
the shell hands the tool the password x plus two injected arguments. -/
theorem secret_not_escaped :
    shellWords (buildCommand ⟨"web1", "10.0.0.5", "admin", "hunter2"⟩ "on")
        = ["ipmitool", "-I", "lanplus", "-H", "10.0.0.5", "-U", "admin", "-P", "hunter2",
            "power", "on"]
  ∧ shellWords (buildCommand ⟨"web1", "10.0.0.5", "admin", malPassword⟩ "on")
        = ["ipmitool", "-I", "lanplus", "-H", "10.0.0.5", "-U", "admin", "-P", "x", "y", "z",
            "power", "on"]
  ∧ "x" ≠ malPassword := by
  refine ⟨by decide, by decide, by decide⟩

end IpmiPower
